import Mathlib

/-!
Verification development for the support-case workflow engine
(`workflow.py` and the case-handling portions of `app.py`).

Shallow embedding conventions:

* An instant is a `Nat`, the number of whole hours since an epoch placed
  at a Monday 00:00.  `datetime.weekday()` (Monday = 0 .. Sunday = 6)
  becomes `(t / 24) % 7`, and `timedelta(hours=1)` becomes `t + 1`.
  All instants appearing in the specification's scenarios fall on whole
  hours, so hour granularity is exact for them.
* A Python ISO-format timestamp string field that uses `""` as its
  "unset" sentinel is embedded as `Option Nat` (`none` = unset).
* `datetime.now()` is an ambient input of the operations; each embedded
  operation takes the current instant `now : Nat` explicitly.
* Python `dict` (insertion ordered) becomes an association list
  `List (String × α)`; `d[k] = v` is `dictSet` below (replace if the key
  is present, append otherwise), and `d.get` / `in` use the first match.
-/

namespace BusinessHoursCalculator

/-- Embeds `BusinessHoursCalculator.is_business_day` (workflow.py):
`date.weekday() < 5`, i.e. the hour `t` falls on a Monday..Friday. -/
def is_business_day (t : Nat) : Bool :=
  decide ((t / 24) % 7 < 5)

/-- One iteration group of the `while` loop in `add_business_hours`:
starting from `t`, repeatedly step one hour (`current += timedelta(hours=1)`)
until the arrival hour lands on a business day.  The loop body decrements
`remaining_hours` exactly when `is_business_day current` holds, so the
instant at which the counter next decreases is the first hour after `t`
lying on a business day.  `fuel` bounds the search; a weekend is 48 hours
long, so any `fuel ≥ 48` makes the bound immaterial. -/
def advance_to_counted_hour : Nat → Nat → Nat
  | t, 0 => t + 1
  | t, fuel + 1 => if is_business_day (t + 1) then t + 1
                   else advance_to_counted_hour (t + 1) fuel

/-- Embeds `BusinessHoursCalculator.add_business_hours` (workflow.py):
add `hours` business hours to `start`, skipping weekend arrival hours.
Identical loop to `SupabaseClient._is_overdue` in app.py. -/
def add_business_hours (start : Nat) : Nat → Nat
  | 0 => start
  | n + 1 => add_business_hours (advance_to_counted_hour start 72) n

/-- Embeds `BusinessHoursCalculator.is_overdue` (workflow.py) with the
ambient `datetime.now()` made an explicit argument `now`; the source
computes `deadline = add_business_hours(forwarded_time, hours_threshold)`
and returns `datetime.now() > deadline`.  `SupabaseClient._is_overdue`
(app.py) is the same comparison. -/
def is_overdue (forwarded_at : Nat) (now : Nat) (hours_threshold : Nat) : Bool :=
  decide (add_business_hours forwarded_at hours_threshold < now)

theorem advance_to_counted_hour_ge (fuel t : Nat) :
    t + 1 ≤ advance_to_counted_hour t fuel := by
  induction fuel generalizing t with
  | zero => simp [advance_to_counted_hour]
  | succ f ih =>
      simp only [advance_to_counted_hour]
      split
      · exact Nat.le_refl _
      · exact Nat.le_trans (Nat.le_succ _) (ih (t + 1))

theorem add_business_hours_lt_succ (n start : Nat) :
    add_business_hours start n < add_business_hours start (n + 1) := by
  induction n generalizing start with
  | zero =>
      show start < add_business_hours (advance_to_counted_hour start 72) 0
      exact Nat.lt_of_lt_of_le (Nat.lt_succ_self start)
        (by simpa [add_business_hours] using advance_to_counted_hour_ge 72 start)
  | succ n ih =>
      show add_business_hours (advance_to_counted_hour start 72) n <
           add_business_hours (advance_to_counted_hour start 72) (n + 1)
      exact ih (advance_to_counted_hour start 72)

end BusinessHoursCalculator

-- ============================================================================
-- workflow.py embedding: translation service, data model, orchestrator
-- ============================================================================

namespace Workflow

/-- Embeds `TranslationService.LANGUAGE_CODES` (workflow.py). -/
def LANGUAGE_CODES : List (String × String) :=
  [("en", "English"), ("da", "Danish"), ("de", "German"), ("fr", "French"),
   ("es", "Spanish"), ("sv", "Swedish"), ("no", "Norwegian"), ("nl", "Dutch"),
   ("it", "Italian"), ("pt", "Portuguese")]

/-- `LANGUAGE_CODES.get(code, 'English')` — the default used on the
auto-detection path of `detect_language`. -/
def language_name_or_english (code : String) : String :=
  ((LANGUAGE_CODES.find? (fun p => p.1 = code)).map (fun p => p.2)).getD "English"

/-- `LANGUAGE_CODES.get(code, 'Unknown')` — the default used by
`translate_from_english` and the explicit-source path. -/
def language_name_or_unknown (code : String) : String :=
  ((LANGUAGE_CODES.find? (fun p => p.1 = code)).map (fun p => p.2)).getD "Unknown"

/-- Embeds `TranslationService.translate_to_english(text)` on its
auto-detection path (the only path `process_new_case` uses).  Language
detection is performed by the external `langdetect` library; the code it
returns is the explicit argument `detected_code` here (the collaborator
input).  Returns `(translated_text, lang_code, lang_name)`. -/
def translate_to_english (text : String) (detected_code : String) :
    String × String × String :=
  let name := language_name_or_english detected_code
  if detected_code = "en" then (text, detected_code, name)
  else ("[Translated from " ++ name ++ " to English] " ++ text, detected_code, name)

/-- Embeds `TranslationService.translate_from_english(text, target_lang_code)`
(workflow.py): passthrough for English, otherwise the mock translation. -/
def translate_from_english (text : String) (target_lang_code : String) : String :=
  if target_lang_code = "en" then text
  else "[Translated to " ++ language_name_or_unknown target_lang_code ++ "] " ++ text

/-- Embeds the `SupportCase` dataclass (workflow.py).  String timestamp
fields with the `""` unset sentinel become `Option Nat`; `__post_init__`
fills `created_at` with `datetime.now()` when it is unset, which every
construction site in the source triggers. -/
structure SupportCase where
  case_id : String
  original_text : String
  original_language : String
  translated_text : String
  task_number : String
  manufacturer_reply : String
  reply_translated : String
  status : String
  created_at : Option Nat
  forwarded_at : Option Nat
  reply_received_at : Option Nat
  reminder_sent : Bool
  needs_approval : Bool
deriving DecidableEq, Repr

/-- One `EmailService.send_email(to, subject, body)` call (the mock prints
and returns `True`; the observable effect is the triple).  The `to`
parameter is named `to_addr` because `to` is reserved in Lean. -/
structure Email where
  to_addr : String
  subject : String
  body : String
deriving DecidableEq, Repr

/-- A Python `NameError` raised when an f-string names an undefined
variable (the only runtime error the embedded operations can raise). -/
inductive PyErr where
  | nameError (name : String)
deriving DecidableEq, Repr

/-- `d[k] = v` on a Python dict embedded as an insertion-ordered
association list: replace in place when the key is present, append
otherwise.  In-place mutation of an object held in the dict has the same
net effect as `d[k] = mutated_object`, so it is embedded the same way. -/
def dictSet {α : Type} (k : String) (v : α) (l : List (String × α)) :
    List (String × α) :=
  if l.any (fun p => p.1 = k) then l.map (fun p => if p.1 = k then (k, v) else p)
  else l ++ [(k, v)]

/-- State of a `SupportWorkflow` instance together with the observable
effect log of its collaborators: `task_counter` is
`ManufacturerAPI.task_counter`, `cases` is `SupportWorkflow.cases`, and
`emails` records every `EmailService.send_email` call in order. -/
structure WorkflowState where
  task_counter : Nat
  cases : List (String × SupportCase)
  emails : List Email
deriving DecidableEq, Repr

/-- `SupportWorkflow.__init__`: empty case store, manufacturer task
counter at 1000, no email sent yet. -/
def initState : WorkflowState :=
  { task_counter := 1000, cases := [], emails := [] }

end Workflow

namespace Workflow

/-- Embeds `ManufacturerAPI.submit_case` (workflow.py): increment the
counter and issue `TASK-{counter}`.  The `submitted_tasks` record kept by
the mock is consumed only by `check_reply`, which nothing here calls, so
it is not part of the state. -/
def submit_case (task_counter : Nat) (_case_description : String) : Nat × String :=
  (task_counter + 1, "TASK-" ++ toString (task_counter + 1))

/-- Embeds `SupportWorkflow.process_new_case(case_text)` (workflow.py).
`detected_code` is the language code produced by the external `langdetect`
collaborator for `case_text`; `now` is the ambient `datetime.now()`.

The source performs, in order: assign `case_id` from the store size;
translate; construct the `SupportCase`; submit to the manufacturer for a
task number; stamp `task_number`, `forwarded_at`, `status = awaiting_reply`;
store the case; then build a confirmation email whose f-string body names
the undefined variable `original_language` (workflow.py line 304).  Python
therefore raises `NameError` while composing the email arguments: the
case is already persisted, `send_email` is never invoked, and the caller
never receives the constructed case. -/
def process_new_case (st : WorkflowState) (case_text : String)
    (detected_code : String) (now : Nat) : WorkflowState × Except PyErr SupportCase :=
  let case_id := "CASE-" ++ toString (st.cases.length + 1001)
  let t := translate_to_english case_text detected_code
  let case1 : SupportCase :=
    { case_id := case_id, original_text := case_text, original_language := t.2.1,
      translated_text := t.1,
      task_number := (submit_case st.task_counter t.1).2,
      manufacturer_reply := "", reply_translated := "",
      status := "awaiting_reply", created_at := some now,
      forwarded_at := some now, reply_received_at := none,
      reminder_sent := false, needs_approval := false }
  ({ st with task_counter := (submit_case st.task_counter t.1).1,
             cases := dictSet case_id case1 st.cases },
   Except.error (PyErr.nameError "original_language"))

/-- Embeds `SupportWorkflow.process_manufacturer_reply(task_number,
reply_text)` (workflow.py).  The source scans `self.cases.values()` in
insertion order and takes the first case whose `task_number` matches;
when none matches it prints an error and returns `None` without touching
any state.  When found, it mutates the stored case through steps 5-7 and
sends the review notification. -/
def process_manufacturer_reply (st : WorkflowState) (task_number reply_text : String)
    (now : Nat) : WorkflowState × Option SupportCase :=
  match st.cases.find? (fun p => p.2.task_number = task_number) with
  | none => (st, none)
  | some (cid, c) =>
      let c1 := { c with
                  manufacturer_reply := reply_text,
                  reply_received_at := some now, status := "reply_received" }
      let c2 := { c1 with
                  reply_translated := translate_from_english reply_text c.original_language,
                  status := "translated_back" }
      let c3 := { c2 with needs_approval := true, status := "pending_approval" }
      let mail : Email :=
        { to_addr := "support@company.com",
          subject := "Case " ++ c.case_id ++ " - Ready for Approval",
          body := "Manufacturer reply received and translated.\n\nOriginal Case: "
                  ++ c.original_text ++ "\n\nTranslated Reply: "
                  ++ c3.reply_translated ++ "\n\nPlease review and approve." }
      ({ st with cases := dictSet cid c3 st.cases, emails := st.emails ++ [mail] },
       some c3)

/-- The loop body of `check_and_send_reminders` for one case: skip unless
`status == AWAITING_REPLY`, skip if `reminder_sent`, otherwise test
`BusinessHoursCalculator.is_overdue(forwarded_at, 24)` and, when overdue,
send the manufacturer reminder, send the notification email, and set
`reminder_sent = True`, `status = REMINDER_SENT`.  Returns the resulting
case, the `send_reminder` task numbers, and the emails sent.  A case with
`forwarded_at` unset would make `datetime.fromisoformat("")` raise in the
source; every case the engine ever stores with status `awaiting_reply`
carries a `forwarded_at`, so that branch is modelled as a skip. -/
def sweep_case (now : Nat) (c : SupportCase) : SupportCase × List String × List Email :=
  if c.status ≠ "awaiting_reply" then (c, [], [])
  else if c.reminder_sent then (c, [], [])
  else
    match c.forwarded_at with
    | some f =>
        if BusinessHoursCalculator.is_overdue f now 24 then
          ({ c with reminder_sent := true, status := "reminder_sent" },
           [c.task_number],
           [{ to_addr := "manufacturer@example.com",
              subject := "REMINDER: Task " ++ c.task_number,
              body := "This is a reminder for task " ++ c.task_number
                      ++ ".\nWe have not received a response within 24 business hours.\nPlease provide an update." }])
        else (c, [], [])
    | none => (c, [], [])

/-- The `for case_id, case in self.cases.items()` loop of
`check_and_send_reminders`, applied to each entry in order. -/
def sweep_cases (now : Nat) :
    List (String × SupportCase) → List (String × SupportCase) × List String × List Email
  | [] => ([], [], [])
  | (cid, c) :: rest =>
      let r := sweep_case now c
      let rs := sweep_cases now rest
      ((cid, r.1) :: rs.1, r.2.1 ++ rs.2.1, r.2.2 ++ rs.2.2)

/-- Embeds `SupportWorkflow.check_and_send_reminders()` (workflow.py) with
the ambient `datetime.now()` explicit.  Returns the new state and the
list of task numbers passed to `ManufacturerAPI.send_reminder`, in call
order. -/
def check_and_send_reminders (st : WorkflowState) (now : Nat) :
    WorkflowState × List String :=
  let r := sweep_cases now st.cases
  ({ st with cases := r.1, emails := st.emails ++ r.2.2 }, r.2.1)

/-- Embeds `SupportWorkflow.approve_case(case_id)` (workflow.py): `False`
when the id is not a key of the store; otherwise set
`status = APPROVED`, email the translated reply to the customer address,
return `True`.  The source reads no clock and writes no timestamp here. -/
def approve_case (st : WorkflowState) (case_id : String) : WorkflowState × Bool :=
  match st.cases.find? (fun p => p.1 = case_id) with
  | none => (st, false)
  | some (cid, c) =>
      let c' := { c with status := "approved" }
      let mail : Email :=
        { to_addr := "customer@example.com",
          subject := "Re: Your support case " ++ case_id,
          body := c.reply_translated }
      ({ st with cases := dictSet cid c' st.cases, emails := st.emails ++ [mail] },
       true)

end Workflow

-- ============================================================================
-- app.py embedding: mock Supabase store and the background reminder sweep
-- ============================================================================

namespace App

/-- Embeds one support-case record of app.py (`create_support_case` writes
a dict with these keys; the `support_cases` SQL schema in the same
docstring lists the same columns).  The record is dict-shaped in the
source; the fields below are the ones the case-handling code reads or
writes.  Timestamp strings become `Option Nat` (`none` = absent key /
NULL), matching the embedding conventions above. -/
structure Case where
  case_id : String
  user_email : String
  original_query : String
  language : String
  language_code : String
  manufacturer_id : String
  manufacturer_name : String
  translated_query : String
  task_number : String
  status : String
  submitted_at : Option Nat
  forwarded_at : Option Nat
  manufacturer_reply : String
  reply_translated : String
  reply_received_at : Option Nat
  reminder_sent : Bool
  reminder_sent_at : Option Nat
  needs_approval : Bool
deriving DecidableEq, Repr

/-- The per-case test of `SupabaseClient.get_overdue_cases` (app.py, mock
path): `status == 'awaiting_reply'`, `reminder_sent` falsy, and
`_is_overdue(fromisoformat(forwarded_at))` with the default 24-hour
threshold.  `_is_overdue` runs the same loop as
`BusinessHoursCalculator.add_business_hours` followed by the same
`datetime.now() > current` comparison, so it is embedded by the shared
`BusinessHoursCalculator.is_overdue`.  A record with no `forwarded_at`
would make `fromisoformat` raise in the mock path; `create_support_case`
always stamps `forwarded_at`, so that branch is modelled as not overdue
(the REST path guards it the same way). -/
def overdue_candidate (now : Nat) (c : Case) : Bool :=
  c.status == "awaiting_reply" && !c.reminder_sent &&
    (match c.forwarded_at with
     | some f => BusinessHoursCalculator.is_overdue f now 24
     | none => false)

/-- Embeds `SupabaseClient.get_overdue_cases` (mock path): the stored
records passing `overdue_candidate`, in table order. -/
def get_overdue_cases (tbl : List (String × Case)) (now : Nat) : List Case :=
  (tbl.filter (fun p => overdue_candidate now p.2)).map (fun p => p.2)

/-- The field merge performed by the `db.update_case(case['case_id'],
{'reminder_sent': True, 'reminder_sent_at': now, 'status':
'reminder_sent'})` call in `check_overdue_cases_background`. -/
def reminder_update (now : Nat) (c : Case) : Case :=
  { c with reminder_sent := true, reminder_sent_at := some now,
           status := "reminder_sent" }

/-- Embeds `SupabaseClient.update_case` (mock path) specialised to the
reminder update: merge the three fields into the record stored under
`cid`; a missing key leaves the table unchanged (the source then merely
returns `False`). -/
def update_case_reminder (tbl : List (String × Case)) (cid : String) (now : Nat) :
    List (String × Case) :=
  tbl.map (fun p => if p.1 = cid then (p.1, reminder_update now p.2) else p)

/-- Embeds `check_overdue_cases_background` (app.py) with the ambient
clock explicit: snapshot the overdue candidates, then for each one call
`ManufacturerAPI.send_reminder(task_number, manufacturer_id)`, apply the
reminder update under its `case_id`, and send the user notification
`EmailService.send_case_notification(user_email, case_id, "Reminder sent
for task ...")`.  Returns the updated table, the `send_reminder` calls in
order, and the notification calls in order. -/
def check_overdue_cases_background (tbl : List (String × Case)) (now : Nat) :
    List (String × Case) × List (String × String) × List (String × String × String) :=
  (get_overdue_cases tbl now).foldl
    (fun acc c =>
      (update_case_reminder acc.1 c.case_id now,
       acc.2.1 ++ [(c.task_number, c.manufacturer_id)],
       acc.2.2 ++ [(c.user_email, c.case_id, "Reminder sent for task " ++ c.task_number)]))
    (tbl, [], [])

end App

namespace Workflow

/-- The three loop conditions of `check_and_send_reminders` as one test:
`status == AWAITING_REPLY`, reminder not yet sent, and overdue by 24
business hours. -/
def sweep_qualifies (now : Nat) (c : SupportCase) : Bool :=
  c.status == "awaiting_reply" && !c.reminder_sent &&
    (match c.forwarded_at with
     | some f => BusinessHoursCalculator.is_overdue f now 24
     | none => false)

/-- The field writes the reminder loop performs on a flagged case. -/
def sweep_update (c : SupportCase) : SupportCase :=
  { c with reminder_sent := true, status := "reminder_sent" }

theorem sweep_case_fst (now : Nat) (c : SupportCase) :
    (sweep_case now c).1 = if sweep_qualifies now c then sweep_update c else c := by
  by_cases h1 : c.status = "awaiting_reply"
  · by_cases h2 : c.reminder_sent
    · simp [sweep_case, sweep_qualifies, h1, h2]
    · cases hf : c.forwarded_at with
      | none => simp [sweep_case, sweep_qualifies, h1, h2, hf]
      | some f =>
          by_cases h3 : BusinessHoursCalculator.is_overdue f now 24 <;>
            simp [sweep_case, sweep_qualifies, sweep_update, h1, h2, hf, h3]
  · simp [sweep_case, sweep_qualifies, h1]

theorem sweep_case_reminders (now : Nat) (c : SupportCase) :
    (sweep_case now c).2.1 = if sweep_qualifies now c then [c.task_number] else [] := by
  by_cases h1 : c.status = "awaiting_reply"
  · by_cases h2 : c.reminder_sent
    · simp [sweep_case, sweep_qualifies, h1, h2]
    · cases hf : c.forwarded_at with
      | none => simp [sweep_case, sweep_qualifies, h1, h2, hf]
      | some f =>
          by_cases h3 : BusinessHoursCalculator.is_overdue f now 24 <;>
            simp [sweep_case, sweep_qualifies, sweep_update, h1, h2, hf, h3]
  · simp [sweep_case, sweep_qualifies, h1]

theorem sweep_cases_fst (now : Nat) (l : List (String × SupportCase)) :
    (sweep_cases now l).1 =
      l.map (fun p => (p.1, if sweep_qualifies now p.2 then sweep_update p.2 else p.2)) := by
  induction l with
  | nil => rfl
  | cons p rest ih =>
      cases p with
      | mk cid c => simp [sweep_cases, ih, sweep_case_fst]

theorem sweep_cases_reminders (now : Nat) (l : List (String × SupportCase)) :
    (sweep_cases now l).2.1 =
      (l.filter (fun p => sweep_qualifies now p.2)).map (fun p => p.2.task_number) := by
  induction l with
  | nil => rfl
  | cons p rest ih =>
      cases p with
      | mk cid c =>
          by_cases hq : sweep_qualifies now c <;>
            simp [sweep_cases, ih, sweep_case_reminders, List.filter_cons, hq]

/-- A case that has just been examined by the sweep can never pass the
loop conditions again at the same instant: a flagged case now carries
status `reminder_sent`, and an unflagged case failed the test already. -/
theorem sweep_qualifies_after (now : Nat) (c : SupportCase) :
    sweep_qualifies now (if sweep_qualifies now c then sweep_update c else c) = false := by
  by_cases h : sweep_qualifies now c
  · simp only [h, if_true]
    simp [sweep_qualifies, sweep_update]
  · simp [h]

end Workflow

namespace App

/-- The table component of the background sweep: the reminder updates of
the snapshot `L`, applied left to right. -/
def apply_reminder_updates (now : Nat) (tbl : List (String × Case)) (L : List Case) :
    List (String × Case) :=
  L.foldl (fun t c => update_case_reminder t c.case_id now) tbl

theorem background_fold (now : Nat) (L : List Case) :
    ∀ (t : List (String × Case)) (rs : List (String × String))
      (ms : List (String × String × String)),
      L.foldl
        (fun acc c =>
          (update_case_reminder acc.1 c.case_id now,
           acc.2.1 ++ [(c.task_number, c.manufacturer_id)],
           acc.2.2 ++ [(c.user_email, c.case_id, "Reminder sent for task " ++ c.task_number)]))
        (t, rs, ms) =
      (apply_reminder_updates now t L,
       rs ++ L.map (fun c => (c.task_number, c.manufacturer_id)),
       ms ++ L.map (fun c => (c.user_email, c.case_id, "Reminder sent for task " ++ c.task_number))) := by
  induction L with
  | nil => intro t rs ms; simp [apply_reminder_updates]
  | cons c L ih =>
      intro t rs ms
      simp only [List.foldl_cons, List.map_cons, ih, apply_reminder_updates]
      simp

theorem check_overdue_cases_background_eq (tbl : List (String × Case)) (now : Nat) :
    check_overdue_cases_background tbl now =
      (apply_reminder_updates now tbl (get_overdue_cases tbl now),
       (get_overdue_cases tbl now).map (fun c => (c.task_number, c.manufacturer_id)),
       (get_overdue_cases tbl now).map
         (fun c => (c.user_email, c.case_id, "Reminder sent for task " ++ c.task_number))) := by
  simpa [check_overdue_cases_background] using
    background_fold now (get_overdue_cases tbl now) tbl [] []

theorem update_case_reminder_not_mem (now : Nat) (tbl : List (String × Case))
    (cid : String) (h : ∀ p ∈ tbl, p.1 ≠ cid) :
    update_case_reminder tbl cid now = tbl := by
  induction tbl with
  | nil => rfl
  | cons p rest ih =>
      simp only [update_case_reminder, List.map_cons]
      rw [if_neg (h p (List.mem_cons_self p rest))]
      have : update_case_reminder rest cid now = rest :=
        ih (fun q hq => h q (List.mem_cons_of_mem p hq))
      simpa [update_case_reminder] using this

theorem apply_reminder_updates_cons (now : Nat) (k : String) (v : Case)
    (L : List Case) (h : ∀ c ∈ L, c.case_id ≠ k) :
    ∀ t, apply_reminder_updates now ((k, v) :: t) L =
      (k, v) :: apply_reminder_updates now t L := by
  induction L with
  | nil => intro t; rfl
  | cons c L ih =>
      intro t
      have hk : ¬ (k = c.case_id) := fun he =>
        h c (List.mem_cons_self c L) (he.symm)
      show apply_reminder_updates now
          (update_case_reminder ((k, v) :: t) c.case_id now) L = _
      rw [show update_case_reminder ((k, v) :: t) c.case_id now =
            (k, v) :: update_case_reminder t c.case_id now by
          simp [update_case_reminder, hk]]
      rw [ih (fun d hd => h d (List.mem_cons_of_mem c hd))]
      rfl

theorem mem_get_overdue_cases {c : Case} {tbl : List (String × Case)} {now : Nat}
    (h : c ∈ get_overdue_cases tbl now) : ∃ p ∈ tbl, p.2 = c := by
  simp only [get_overdue_cases, List.mem_map, List.mem_filter] at h
  obtain ⟨p, ⟨hp, _⟩, hc⟩ := h
  exact ⟨p, hp, hc⟩

theorem apply_reminder_updates_characterization (now : Nat) :
    ∀ (tbl : List (String × Case)),
      (∀ p ∈ tbl, p.1 = p.2.case_id) →
      (tbl.map (fun p => p.1)).Nodup →
      apply_reminder_updates now tbl (get_overdue_cases tbl now) =
        tbl.map (fun p =>
          if overdue_candidate now p.2 then (p.1, reminder_update now p.2) else p) := by
  intro tbl
  induction tbl with
  | nil => intro _ _; rfl
  | cons p rest ih =>
      intro hkeys hnodup
      have hkey : p.1 = p.2.case_id := hkeys p (List.mem_cons_self p rest)
      have hkeys' : ∀ q ∈ rest, q.1 = q.2.case_id :=
        fun q hq => hkeys q (List.mem_cons_of_mem p hq)
      rw [List.map_cons, List.nodup_cons] at hnodup
      obtain ⟨hp1, hnr⟩ := hnodup
      have hG : ∀ c ∈ get_overdue_cases rest now, c.case_id ≠ p.1 := by
        intro c hc he
        obtain ⟨q, hq, hqc⟩ := mem_get_overdue_cases hc
        exact hp1 (by
          rw [List.mem_map]
          exact ⟨q, hq, by rw [hkeys' q hq, hqc, he]⟩)
      by_cases hq : overdue_candidate now p.2
      · have hGfull : get_overdue_cases (p :: rest) now = p.2 :: get_overdue_cases rest now := by
          simp [get_overdue_cases, List.filter_cons, hq]
        rw [hGfull]
        show apply_reminder_updates now
            (update_case_reminder (p :: rest) p.2.case_id now)
            (get_overdue_cases rest now) = _
        have hrest : update_case_reminder rest p.2.case_id now = rest :=
          update_case_reminder_not_mem now rest p.2.case_id
            (fun q hqm he => hp1 (by
              rw [List.mem_map]
              exact ⟨q, hqm, by rw [he, hkey]⟩))
        have hupd : update_case_reminder (p :: rest) p.2.case_id now =
            (p.1, reminder_update now p.2) :: rest := by
          cases p with
          | mk k v =>
              simp only at hkey
              simp [update_case_reminder, hkey] at hrest ⊢
              exact hrest
        rw [hupd, apply_reminder_updates_cons now _ _ _ hG, ih hkeys' hnr,
            List.map_cons, if_pos hq]
      · have hGfull : get_overdue_cases (p :: rest) now = get_overdue_cases rest now := by
          simp [get_overdue_cases, List.filter_cons, hq]
        rw [hGfull]
        cases p with
        | mk k v =>
            rw [show ((k, v) :: rest : List (String × Case)) = (k, v) :: rest from rfl]
            rw [apply_reminder_updates_cons now k v _ (by simpa using hG)]
            rw [ih hkeys' hnr, List.map_cons, if_neg hq]

end App

-- ============================================================================
-- Claim theorems
-- ============================================================================

set_option maxRecDepth 10000

/-- Claim C3: for a case forwarded on a Friday at 16:00 (hour 112 in the
epoch-Monday encoding), `add_business_hours(forwarded_at, 24)` is the
following Monday at 16:00 (hour 184) under Mon-Fri-only accrual, so a
24-business-hour `is_overdue` check is true at Monday 17:00 (hour 185)
and false at Monday 15:00 (hour 183). -/
theorem c3_friday_16_deadline :
    BusinessHoursCalculator.add_business_hours 112 24 = 184 ∧
    BusinessHoursCalculator.is_overdue 112 185 24 = true ∧
    BusinessHoursCalculator.is_overdue 112 183 24 = false :=
  ⟨by decide, by decide, by decide⟩

/-- Claim C8, counterexample: the claim reads "letting
`result = add_business_hours(start, n)`, checking `is_overdue` with
`n + 1` yields true".  At `start = 0`, `n = 0` the check
`is_overdue(start, result, n + 1)` compares `result = start` against the
strictly later `(n+1)`-hour deadline and yields false, not true. -/
theorem c8_counterexample :
    BusinessHoursCalculator.is_overdue 0
      (BusinessHoursCalculator.add_business_hours 0 0) (0 + 1) = false := by
  decide

/-- Claim C8, amended: for every start instant and every `n ≥ 0`, with
`result = add_business_hours(start, n)`: `is_overdue(start, result, n)`
is false (the boundary instant is not yet overdue, the comparison being
strict), `is_overdue(start, add_business_hours(start, n + 1), n)` is true
(one further business hour is strictly past the `n`-hour deadline), and
`add_business_hours(start, 0)` returns `start` unchanged. -/
theorem c8_boundary_exactness (start n : Nat) :
    BusinessHoursCalculator.is_overdue start
      (BusinessHoursCalculator.add_business_hours start n) n = false ∧
    BusinessHoursCalculator.is_overdue start
      (BusinessHoursCalculator.add_business_hours start (n + 1)) n = true ∧
    BusinessHoursCalculator.add_business_hours start 0 = start := by
  refine ⟨?_, ?_, rfl⟩
  · simp [BusinessHoursCalculator.is_overdue]
  · simpa [BusinessHoursCalculator.is_overdue] using
      BusinessHoursCalculator.add_business_hours_lt_succ n start

/-- Claim C1, evaluation at the failing input: `process_new_case` on the
Danish example text persists the case — status `awaiting_reply`, fresh
task number `TASK-1001`, non-empty translation, `forwarded_at` stamped —
but then raises `NameError` because the confirmation-email f-string at
workflow.py line 304 names the undefined variable `original_language`.
No notification is sent and the caller never receives the case, contrary
to the claim's "the owner is notified with the task number and the Case
is returned to the caller". -/
theorem c1_process_new_case_name_error :
    Workflow.process_new_case Workflow.initState "Hej, jeg har et problem" "da" 112 =
      ({ task_counter := 1001,
         cases := [("CASE-1001",
           { case_id := "CASE-1001",
             original_text := "Hej, jeg har et problem",
             original_language := "da",
             translated_text := "[Translated from Danish to English] Hej, jeg har et problem",
             task_number := "TASK-1001",
             manufacturer_reply := "",
             reply_translated := "",
             status := "awaiting_reply",
             created_at := some 112,
             forwarded_at := some 112,
             reply_received_at := none,
             reminder_sent := false,
             needs_approval := false })],
         emails := [] },
       Except.error (Workflow.PyErr.nameError "original_language")) := by
  rfl

/-- Claim C10: in `process_new_case` the fully-forwarded case (status
`awaiting_reply`, fresh task number, `forwarded_at = now`) is stored
strictly before the confirmation notification is composed, and composing
that notification raises (its f-string names the undefined
`original_language`); consequently, for every starting state and input,
the store permanently retains the case while the caller receives an
error instead of the Case, and no email is recorded. -/
theorem c10_persist_precedes_notification (st : Workflow.WorkflowState)
    (case_text detected_code : String) (now : Nat) :
    ∃ c : Workflow.SupportCase,
      Workflow.process_new_case st case_text detected_code now =
        ({ task_counter := st.task_counter + 1,
           cases := Workflow.dictSet ("CASE-" ++ toString (st.cases.length + 1001)) c st.cases,
           emails := st.emails },
         Except.error (Workflow.PyErr.nameError "original_language")) ∧
      c.status = "awaiting_reply" ∧
      c.task_number = "TASK-" ++ toString (st.task_counter + 1) ∧
      c.forwarded_at = some now ∧
      c.translated_text = (Workflow.translate_to_english case_text detected_code).1 :=
  ⟨_, rfl, rfl, rfl, rfl, rfl⟩

/-- A concrete stored case as `process_new_case` leaves it (used by
witnesses below): forwarded on Friday 16:00 (hour 112), still awaiting a
reply. -/
def awaitingCase : Workflow.SupportCase :=
  { case_id := "CASE-1001",
    original_text := "Hej, jeg har et problem",
    original_language := "da",
    translated_text := "[Translated from Danish to English] Hej, jeg har et problem",
    task_number := "TASK-1001",
    manufacturer_reply := "",
    reply_translated := "",
    status := "awaiting_reply",
    created_at := some 112,
    forwarded_at := some 112,
    reply_received_at := none,
    reminder_sent := false,
    needs_approval := false }

/-- A concrete workflow state holding `awaitingCase` (used by witnesses
below). -/
def awaitingState : Workflow.WorkflowState :=
  { task_counter := 1001,
    cases := [("CASE-1001", awaitingCase)],
    emails := [] }

/-- Claim C4, counterexample: the lookup miss is surfaced as exactly the
"null result with ambiguous meaning" the claim rules out — the source
prints an error and returns Python `None` (embedded `none`); no typed
`CaseNotFound` failure exists anywhere in the source. -/
theorem c4_counterexample :
    Workflow.process_manufacturer_reply Workflow.initState "no-such-token" "x" 0 =
      (Workflow.initState, none) := by
  rfl

/-- Claim C4, amended: `process_manufacturer_reply` called with a
`task_number` held by no stored case returns `None` (a null result, not
a typed `CaseNotFound` failure) and leaves the entire state — every
stored case, the counter and the email log — unchanged. -/
theorem c4_unknown_token (st : Workflow.WorkflowState) (tok reply : String) (now : Nat)
    (h : ∀ p ∈ st.cases, p.2.task_number ≠ tok) :
    Workflow.process_manufacturer_reply st tok reply now = (st, none) := by
  have hfind : st.cases.find? (fun p => p.2.task_number = tok) = none := by
    rw [List.find?_eq_none]
    intro p hp
    simpa using h p hp
  simp [Workflow.process_manufacturer_reply, hfind]

/-- Claim C4, witness: the amended theorem applied to a non-empty store
and the token of the specification's example. -/
theorem c4_witness :
    Workflow.process_manufacturer_reply awaitingState "no-such-token" "x" 200 =
      (awaitingState, none) :=
  c4_unknown_token awaitingState "no-such-token" "x" 200 (by decide)

namespace Workflow

/-- The net field writes of steps 5-7 of `process_manufacturer_reply` on
the found case (the three successive in-place mutations composed). -/
def reply_result (c : SupportCase) (reply_text : String) (now : Nat) : SupportCase :=
  { c with manufacturer_reply := reply_text,
           reply_received_at := some now,
           reply_translated := translate_from_english reply_text c.original_language,
           needs_approval := true,
           status := "pending_approval" }

/-- The reviewer-notification email `process_manufacturer_reply` sends. -/
def reply_mail (c : SupportCase) (reply_text : String) : Email :=
  { to_addr := "support@company.com",
    subject := "Case " ++ c.case_id ++ " - Ready for Approval",
    body := "Manufacturer reply received and translated.\n\nOriginal Case: "
            ++ c.original_text ++ "\n\nTranslated Reply: "
            ++ translate_from_english reply_text c.original_language
            ++ "\n\nPlease review and approve." }

theorem process_manufacturer_reply_found (st : WorkflowState) (tok r : String)
    (now : Nat) (cid : String) (c : SupportCase)
    (hfind : st.cases.find? (fun p => p.2.task_number = tok) = some (cid, c)) :
    process_manufacturer_reply st tok r now =
      ({ st with cases := dictSet cid (reply_result c r now) st.cases,
                 emails := st.emails ++ [reply_mail c r] },
       some (reply_result c r now)) := by
  simp only [process_manufacturer_reply, hfind]
  rfl

theorem keys_dictSet_of_any {α : Type} (k : String) (v : α) (l : List (String × α))
    (h : l.any (fun p => p.1 = k) = true) :
    (dictSet k v l).map (fun p => p.1) = l.map (fun p => p.1) := by
  simp only [dictSet, h, if_true]
  rw [List.map_map]
  apply List.map_congr_left
  intro p _
  by_cases hp : p.1 = k <;> simp [hp]

theorem find?_task_dictSet (tok cid : String) (c c' : SupportCase) :
    ∀ l : List (String × SupportCase),
      l.find? (fun p => p.2.task_number = tok) = some (cid, c) →
      (l.map (fun p => p.1)).Nodup →
      c'.task_number = tok →
      (dictSet cid c' l).find? (fun p => p.2.task_number = tok) = some (cid, c') := by
  intro l
  induction l with
  | nil => intro hfind; simp at hfind
  | cons p rest ih =>
      intro hfind hnodup htok
      rw [List.map_cons, List.nodup_cons] at hnodup
      obtain ⟨hp1, hnr⟩ := hnodup
      have hmem : (cid, c) ∈ p :: rest := List.mem_of_find?_eq_some hfind
      have hany : (p :: rest).any (fun q => q.1 = cid) = true := by
        rw [List.any_eq_true]
        exact ⟨(cid, c), hmem, by simp⟩
      rw [show dictSet cid c' (p :: rest) =
            (p :: rest).map (fun q => if q.1 = cid then (cid, c') else q) by
          simp [dictSet, hany]]
      by_cases hp : p.2.task_number = tok
      · have hpeq : p = (cid, c) := by
          have := List.find?_cons_of_pos (l := rest) (p := fun q => decide (q.2.task_number = tok))
            (a := p) (by simpa using hp)
          rw [this] at hfind
          exact (Option.some.injEq _ _).mp hfind
        subst hpeq
        simp [htok]
      · have hfind' : rest.find? (fun q => q.2.task_number = tok) = some (cid, c) := by
          have := List.find?_cons_of_neg (l := rest) (p := fun q => decide (q.2.task_number = tok))
            (a := p) (by simpa using hp)
          rw [this] at hfind
          exact hfind
        have hcidrest : cid ∈ rest.map (fun q => q.1) := by
          rw [List.mem_map]
          exact ⟨(cid, c), List.mem_of_find?_eq_some hfind', rfl⟩
        have hpcid : ¬ (p.1 = cid) := fun he => hp1 (he ▸ hcidrest)
        have hanyrest : rest.any (fun q => q.1 = cid) = true := by
          rw [List.any_eq_true]
          rw [List.mem_map] at hcidrest
          obtain ⟨q, hq, hq1⟩ := hcidrest
          exact ⟨q, hq, by simp [hq1]⟩
        have hrest := ih hfind' hnr htok
        rw [show dictSet cid c' rest =
              rest.map (fun q => if q.1 = cid then (cid, c') else q) by
            simp [dictSet, hanyrest]] at hrest
        rw [List.map_cons, if_neg hpcid]
        rw [List.find?_cons_of_neg _ (by simpa using hp)]
        exact hrest

end Workflow

/-- Claim C9: calling `process_manufacturer_reply` a second time with the
same `task_number` succeeds (it returns a case, no guard rejects the
duplicate) and silently overwrites `manufacturer_reply` and
`reply_translated` with values derived from the second reply text, both
in the returned case and in the store. -/
theorem c9_second_reply_overwrites (st : Workflow.WorkflowState)
    (tok r1 r2 : String) (t1 t2 : Nat) (cid : String) (c : Workflow.SupportCase)
    (hfind : st.cases.find? (fun p => p.2.task_number = tok) = some (cid, c))
    (hnodup : (st.cases.map (fun p => p.1)).Nodup) :
    (Workflow.process_manufacturer_reply
        (Workflow.process_manufacturer_reply st tok r1 t1).1 tok r2 t2).2 =
      some (Workflow.reply_result (Workflow.reply_result c r1 t1) r2 t2) ∧
    (Workflow.reply_result (Workflow.reply_result c r1 t1) r2 t2).manufacturer_reply = r2 ∧
    (Workflow.reply_result (Workflow.reply_result c r1 t1) r2 t2).reply_translated =
      Workflow.translate_from_english r2 c.original_language ∧
    (Workflow.reply_result (Workflow.reply_result c r1 t1) r2 t2).status =
      "pending_approval" ∧
    (Workflow.process_manufacturer_reply
        (Workflow.process_manufacturer_reply st tok r1 t1).1 tok r2 t2).1.cases.find?
      (fun p => p.2.task_number = tok) =
      some (cid, Workflow.reply_result (Workflow.reply_result c r1 t1) r2 t2) := by
  have hptok : c.task_number = tok := by
    have h := List.find?_some hfind
    simpa using h
  have hr1tok : (Workflow.reply_result c r1 t1).task_number = tok := hptok
  have hr2tok :
      (Workflow.reply_result (Workflow.reply_result c r1 t1) r2 t2).task_number = tok :=
    hptok
  have h1st := Workflow.process_manufacturer_reply_found st tok r1 t1 cid c hfind
  have hs1 : (Workflow.process_manufacturer_reply st tok r1 t1).1.cases =
      Workflow.dictSet cid (Workflow.reply_result c r1 t1) st.cases := by
    rw [h1st]
  have hany : st.cases.any (fun p => p.1 = cid) = true :=
    List.any_eq_true.mpr ⟨(cid, c), List.mem_of_find?_eq_some hfind, by simp⟩
  have h1 : (Workflow.process_manufacturer_reply st tok r1 t1).1.cases.find?
      (fun p => p.2.task_number = tok) = some (cid, Workflow.reply_result c r1 t1) := by
    rw [hs1]
    exact Workflow.find?_task_dictSet tok cid c _ st.cases hfind hnodup hr1tok
  have hnodup1 : ((Workflow.process_manufacturer_reply st tok r1 t1).1.cases.map
      (fun p => p.1)).Nodup := by
    rw [hs1, Workflow.keys_dictSet_of_any _ _ _ hany]
    exact hnodup
  have h2nd := Workflow.process_manufacturer_reply_found
    (Workflow.process_manufacturer_reply st tok r1 t1).1 tok r2 t2 cid
    (Workflow.reply_result c r1 t1) h1
  refine ⟨by rw [h2nd], rfl, rfl, rfl, ?_⟩
  rw [h2nd]
  exact Workflow.find?_task_dictSet tok cid (Workflow.reply_result c r1 t1) _
    (Workflow.process_manufacturer_reply st tok r1 t1).1.cases h1 hnodup1 hr2tok

/-- Claim C9, witness: both replies applied to the concrete stored case
`awaitingCase` under its task number `TASK-1001`. -/
theorem c9_witness :
    (Workflow.process_manufacturer_reply
        (Workflow.process_manufacturer_reply awaitingState "TASK-1001" "First reply" 200).1
        "TASK-1001" "Second reply" 300).2 =
      some (Workflow.reply_result
        (Workflow.reply_result awaitingCase "First reply" 200) "Second reply" 300) ∧
    (Workflow.reply_result
        (Workflow.reply_result awaitingCase "First reply" 200) "Second reply"
        300).manufacturer_reply = "Second reply" ∧
    (Workflow.reply_result
        (Workflow.reply_result awaitingCase "First reply" 200) "Second reply"
        300).reply_translated =
      Workflow.translate_from_english "Second reply" awaitingCase.original_language ∧
    (Workflow.reply_result
        (Workflow.reply_result awaitingCase "First reply" 200) "Second reply"
        300).status = "pending_approval" ∧
    (Workflow.process_manufacturer_reply
        (Workflow.process_manufacturer_reply awaitingState "TASK-1001" "First reply" 200).1
        "TASK-1001" "Second reply" 300).1.cases.find?
      (fun p => p.2.task_number = "TASK-1001") =
      some ("CASE-1001", Workflow.reply_result
        (Workflow.reply_result awaitingCase "First reply" 200) "Second reply" 300) :=
  c9_second_reply_overwrites awaitingState "TASK-1001" "First reply" "Second reply"
    200 300 "CASE-1001" awaitingCase (by decide) (by decide)

/-- `awaitingCase` after a manufacturer reply has been processed (the
state in which `approve_case` is meant to be called). -/
def pendingCase : Workflow.SupportCase :=
  { awaitingCase with
    manufacturer_reply := "We fixed it",
    reply_translated := "[Translated to Danish] We fixed it",
    reply_received_at := some 200,
    needs_approval := true,
    status := "pending_approval" }

/-- A concrete workflow state holding `pendingCase`. -/
def pendingState : Workflow.WorkflowState :=
  { task_counter := 1001,
    cases := [("CASE-1001", pendingCase)],
    emails := [] }

/-- Claim C6, counterexample: approving the concrete pending case yields
exactly this post-state — the stored case changes in its `status` field
only and the translated reply is emailed to the fixed customer address.
`approve_case` reads no clock and `SupportCase` has no `approved_at`
field, so the approval instant is recorded nowhere, refuting the claim's
"sets ... approved_at to the current time". -/
theorem c6_counterexample :
    Workflow.approve_case pendingState "CASE-1001" =
      ({ task_counter := 1001,
         cases := [("CASE-1001",
           { case_id := "CASE-1001",
             original_text := "Hej, jeg har et problem",
             original_language := "da",
             translated_text := "[Translated from Danish to English] Hej, jeg har et problem",
             task_number := "TASK-1001",
             manufacturer_reply := "We fixed it",
             reply_translated := "[Translated to Danish] We fixed it",
             status := "approved",
             created_at := some 112,
             forwarded_at := some 112,
             reply_received_at := some 200,
             reminder_sent := false,
             needs_approval := true })],
         emails := [{ to_addr := "customer@example.com",
                      subject := "Re: Your support case CASE-1001",
                      body := "[Translated to Danish] We fixed it" }] },
       true) := by
  rfl

/-- Claim C6, amended: `approve_case(case_id)` returns `false` and
changes no state when no case with that identifier exists; otherwise it
sets the case's status to `"approved"` (recording no approval timestamp —
the data model has no `approved_at` field and the operation reads no
clock), sends the `reply_translated` content to the customer address via
the email service, and returns `true`. -/
theorem c6_approve (st : Workflow.WorkflowState) (cid : String) :
    (st.cases.find? (fun p => p.1 = cid) = none →
      Workflow.approve_case st cid = (st, false)) ∧
    (∀ c : Workflow.SupportCase,
      st.cases.find? (fun p => p.1 = cid) = some (cid, c) →
      Workflow.approve_case st cid =
        ({ st with
           cases := Workflow.dictSet cid { c with status := "approved" } st.cases,
           emails := st.emails ++
             [{ to_addr := "customer@example.com",
                subject := "Re: Your support case " ++ cid,
                body := c.reply_translated }] },
         true)) := by
  constructor
  · intro h
    simp [Workflow.approve_case, h]
  · intro c h
    simp only [Workflow.approve_case, h]

/-- Claim C6, witness: the amended theorem applied to the concrete
pending state, for both a missing id and the stored id. -/
theorem c6_witness :
    Workflow.approve_case pendingState "CASE-9999" = (pendingState, false) ∧
    Workflow.approve_case pendingState "CASE-1001" =
      ({ pendingState with
         cases := Workflow.dictSet "CASE-1001"
           { pendingCase with status := "approved" } pendingState.cases,
         emails := pendingState.emails ++
           [{ to_addr := "customer@example.com",
              subject := "Re: Your support case " ++ "CASE-1001",
              body := pendingCase.reply_translated }] },
       true) :=
  ⟨(c6_approve pendingState "CASE-9999").1 (by decide),
   (c6_approve pendingState "CASE-1001").2 pendingCase (by decide)⟩

/-- Claim C2, counterexample: running `check_and_send_reminders` at
Monday 20:00 (hour 200) over the store holding the overdue
`awaitingCase` yields exactly this post-state — the flagged case changes
in its `reminder_sent` and `status` fields only, one `send_reminder`
call is made, and the manufacturer notification is sent.
`check_and_send_reminders` writes no timestamp and the workflow.py
`SupportCase` has no `reminder_sent_at` field, so the reminder instant
is recorded nowhere, refuting the claim's "the case is updated to ...
reminder_sent_at = now" for the named operation. -/
theorem c2_counterexample :
    Workflow.check_and_send_reminders awaitingState 200 =
      ({ task_counter := 1001,
         cases := [("CASE-1001",
           { case_id := "CASE-1001",
             original_text := "Hej, jeg har et problem",
             original_language := "da",
             translated_text := "[Translated from Danish to English] Hej, jeg har et problem",
             task_number := "TASK-1001",
             manufacturer_reply := "",
             reply_translated := "",
             status := "reminder_sent",
             created_at := some 112,
             forwarded_at := some 112,
             reply_received_at := none,
             reminder_sent := true,
             needs_approval := false })],
         emails := [{ to_addr := "manufacturer@example.com",
                      subject := "REMINDER: Task TASK-1001",
                      body := "This is a reminder for task TASK-1001.\nWe have not received a response within 24 business hours.\nPlease provide an update." }] },
       ["TASK-1001"]) := by
  decide

/-- Claim C2, amended: one sweep invocation updates exactly the
qualifying cases and dispatches exactly one reminder per qualifying
case.  For `SupportWorkflow.check_and_send_reminders` (workflow.py):
each stored case with `status = awaiting_reply`, `reminder_sent = false`
and `is_overdue(forwarded_at, 24)` becomes `reminder_sent = true`,
`status = reminder_sent` — no `reminder_sent_at` is recorded, the
workflow.py `SupportCase` having no such field — its other fields are
untouched, every other case is left entirely unchanged, and the
`send_reminder` calls are exactly the qualifying cases' task numbers in
order.  The `reminder_sent_at = now` write exists only in the
persistent-store sweep `check_overdue_cases_background` (app.py), which
performs the same pass through `get_overdue_cases`/`update_case` and is
additionally characterised here. -/
theorem c2_reminder_sweep (now : Nat) :
    (∀ st : Workflow.WorkflowState,
       (Workflow.check_and_send_reminders st now).1.cases =
         st.cases.map (fun p =>
           (p.1, if Workflow.sweep_qualifies now p.2
                 then Workflow.sweep_update p.2 else p.2)) ∧
       (Workflow.check_and_send_reminders st now).2 =
         (st.cases.filter (fun p => Workflow.sweep_qualifies now p.2)).map
           (fun p => p.2.task_number)) ∧
    (∀ tbl : List (String × App.Case),
       (∀ p ∈ tbl, p.1 = p.2.case_id) →
       (tbl.map (fun p => p.1)).Nodup →
       (App.check_overdue_cases_background tbl now).1 =
         tbl.map (fun p =>
           if App.overdue_candidate now p.2
           then (p.1, App.reminder_update now p.2) else p) ∧
       (App.check_overdue_cases_background tbl now).2.1 =
         (tbl.filter (fun p => App.overdue_candidate now p.2)).map
           (fun p => (p.2.task_number, p.2.manufacturer_id))) := by
  constructor
  · intro st
    constructor
    · simp [Workflow.check_and_send_reminders, Workflow.sweep_cases_fst]
    · simp [Workflow.check_and_send_reminders, Workflow.sweep_cases_reminders]
  · intro tbl hkeys hnodup
    constructor
    · rw [App.check_overdue_cases_background_eq]
      exact App.apply_reminder_updates_characterization now tbl hkeys hnodup
    · rw [App.check_overdue_cases_background_eq]
      simp [App.get_overdue_cases, List.map_map]

/-- Claim C5: running `check_and_send_reminders` twice in succession —
same ambient instant, so no case newly becomes overdue between the two
invocations — makes zero `send_reminder` calls the second time: every
case flagged by the first pass now carries `status = reminder_sent` and
`reminder_sent = true`, and every other case still fails the very test
it failed before. -/
theorem c5_second_sweep_sends_nothing (st : Workflow.WorkflowState) (now : Nat) :
    (Workflow.check_and_send_reminders
       (Workflow.check_and_send_reminders st now).1 now).2 = [] := by
  have h1 : (Workflow.check_and_send_reminders st now).1.cases =
      st.cases.map (fun p =>
        (p.1, if Workflow.sweep_qualifies now p.2
              then Workflow.sweep_update p.2 else p.2)) := by
    simp [Workflow.check_and_send_reminders, Workflow.sweep_cases_fst]
  have h2 : (Workflow.check_and_send_reminders
      (Workflow.check_and_send_reminders st now).1 now).2 =
      ((Workflow.check_and_send_reminders st now).1.cases.filter
        (fun p => Workflow.sweep_qualifies now p.2)).map (fun p => p.2.task_number) := by
    simp [Workflow.check_and_send_reminders, Workflow.sweep_cases_reminders]
  rw [h2, h1]
  have hnil : (st.cases.map (fun p =>
      (p.1, if Workflow.sweep_qualifies now p.2
            then Workflow.sweep_update p.2 else p.2))).filter
      (fun p => Workflow.sweep_qualifies now p.2) = [] := by
    rw [List.filter_eq_nil_iff]
    intro p hp
    rw [List.mem_map] at hp
    obtain ⟨q, _, hpe⟩ := hp
    subst hpe
    simp [Workflow.sweep_qualifies_after]
  rw [hnil]
  rfl

/-- A concrete app.py case record as `create_support_case` +
`process_support_case` leave it: awaiting a reply forwarded on Friday
16:00 (hour 112). -/
def appAwaitingCase : App.Case :=
  { case_id := "CASE-1700000000-123",
    user_email := "u@x.com",
    original_query := "Hej, jeg har et problem",
    language := "Danish",
    language_code := "da",
    manufacturer_id := "m1",
    manufacturer_name := "Manufacturer One",
    translated_query := "[Translated from Danish to English] Hej, jeg har et problem",
    task_number := "M1-TASK-1001",
    status := "awaiting_reply",
    submitted_at := some 112,
    forwarded_at := some 112,
    manufacturer_reply := "",
    reply_translated := "",
    reply_received_at := none,
    reminder_sent := false,
    reminder_sent_at := none,
    needs_approval := false }

/-- A concrete app.py case table holding `appAwaitingCase`. -/
def appTable : List (String × App.Case) :=
  [("CASE-1700000000-123", appAwaitingCase)]

/-- Claim C2, witness: the sweep characterisations applied at Monday
20:00 (hour 200), an instant at which the concrete stored case is
overdue, so both sweeps fire on it. -/
theorem c2_witness :
    ((Workflow.check_and_send_reminders awaitingState 200).1.cases =
       awaitingState.cases.map (fun p =>
         (p.1, if Workflow.sweep_qualifies 200 p.2
               then Workflow.sweep_update p.2 else p.2)) ∧
     (Workflow.check_and_send_reminders awaitingState 200).2 =
       (awaitingState.cases.filter (fun p => Workflow.sweep_qualifies 200 p.2)).map
         (fun p => p.2.task_number)) ∧
    ((App.check_overdue_cases_background appTable 200).1 =
       appTable.map (fun p =>
         if App.overdue_candidate 200 p.2
         then (p.1, App.reminder_update 200 p.2) else p) ∧
     (App.check_overdue_cases_background appTable 200).2.1 =
       (appTable.filter (fun p => App.overdue_candidate 200 p.2)).map
         (fun p => (p.2.task_number, p.2.manufacturer_id))) :=
  ⟨(c2_reminder_sweep 200).1 awaitingState,
   (c2_reminder_sweep 200).2 appTable (by decide) (by decide)⟩

namespace Workflow

/-- The engine's public mutating operations, each carrying its external
inputs (the detected language code and the ambient clock). -/
inductive Op where
  | newCase (case_text detected_code : String) (now : Nat)
  | reply (task_number reply_text : String) (now : Nat)
  | sweep (now : Nat)
  | approve (case_id : String)

/-- Apply one operation to the state, keeping only the state (a raised
`NameError` likewise leaves the already-mutated store behind). -/
def applyOp (st : WorkflowState) : Op → WorkflowState
  | Op.newCase t d n => (process_new_case st t d n).1
  | Op.reply tok r n => (process_manufacturer_reply st tok r n).1
  | Op.sweep n => (check_and_send_reminders st n).1
  | Op.approve cid => (approve_case st cid).1

/-- The state reached from a fresh `SupportWorkflow` by a sequence of
operations. -/
def run (ops : List Op) : WorkflowState :=
  ops.foldl applyOp initState

/-- A reply has been received for this case: `process_manufacturer_reply`
stamps `reply_received_at` and stores the reply text. -/
def reply_received (c : SupportCase) : Prop :=
  c.reply_received_at.isSome = true ∨ c.manufacturer_reply ≠ ""

/-- The C7 invariant: no stored case that has received a reply has
status `awaiting_reply`. -/
def NoReopen (st : WorkflowState) : Prop :=
  ∀ p ∈ st.cases, reply_received p.2 → p.2.status ≠ "awaiting_reply"

theorem mem_dictSet {α : Type} {p : String × α} {k : String} {v : α}
    {l : List (String × α)} (h : p ∈ dictSet k v l) : p ∈ l ∨ p = (k, v) := by
  simp only [dictSet] at h
  split at h
  · rw [List.mem_map] at h
    obtain ⟨q, hq, hpe⟩ := h
    by_cases hqk : q.1 = k
    · right
      rw [← hpe]
      simp [hqk]
    · left
      rw [← hpe]
      simpa [hqk] using hq
  · rw [List.mem_append] at h
    rcases h with h | h
    · exact Or.inl h
    · exact Or.inr (by simpa using h)

theorem noReopen_applyOp (st : WorkflowState) (op : Op) (h : NoReopen st) :
    NoReopen (applyOp st op) := by
  cases op with
  | newCase t d n =>
      intro p hp hr
      simp only [applyOp, process_new_case] at hp
      rcases mem_dictSet hp with hold | hnew
      · exact h p hold hr
      · rw [hnew] at hr
        rcases hr with hr | hr
        · simp at hr
        · simp at hr
  | reply tok r n =>
      intro p hp hr
      rcases hfind : st.cases.find? (fun q => q.2.task_number = tok) with _ | ⟨cid, c⟩
      · rw [show (applyOp st (Op.reply tok r n)) = st by
            simp [applyOp, process_manufacturer_reply, hfind]] at hp
        exact h p hp hr
      · rw [show (applyOp st (Op.reply tok r n)).cases =
              dictSet cid (reply_result c r n) st.cases by
            simp [applyOp, process_manufacturer_reply_found st tok r n cid c hfind]] at hp
        rcases mem_dictSet hp with hold | hnew
        · exact h p hold hr
        · rw [hnew]
          simp [reply_result]
  | sweep n =>
      intro p hp hr
      rw [show (applyOp st (Op.sweep n)).cases =
            st.cases.map (fun q =>
              (q.1, if sweep_qualifies n q.2 then sweep_update q.2 else q.2)) by
          simp [applyOp, check_and_send_reminders, sweep_cases_fst]] at hp
      rw [List.mem_map] at hp
      obtain ⟨q, hq, hpe⟩ := hp
      by_cases hqual : sweep_qualifies n q.2
      · rw [← hpe]
        simp [hqual, sweep_update]
      · rw [← hpe] at hr ⊢
        simp only [hqual, if_neg, Bool.false_eq_true, if_false] at hr ⊢
        exact h q hq hr
  | approve cid =>
      intro p hp hr
      rcases hfind : st.cases.find? (fun q => q.1 = cid) with _ | ⟨k, c⟩
      · rw [show (applyOp st (Op.approve cid)) = st by
            simp [applyOp, approve_case, hfind]] at hp
        exact h p hp hr
      · rw [show (applyOp st (Op.approve cid)).cases =
              dictSet k { c with status := "approved" } st.cases by
            simp [applyOp, approve_case, hfind]] at hp
        rcases mem_dictSet hp with hold | hnew
        · exact h p hold hr
        · rw [hnew]
          simp

theorem noReopen_run (ops : List Op) : NoReopen (run ops) := by
  have hgen : ∀ (l : List Op) (st : WorkflowState),
      NoReopen st → NoReopen (l.foldl applyOp st) := by
    intro l
    induction l with
    | nil => intro st h; exact h
    | cons op l ih =>
        intro st h
        exact ih _ (noReopen_applyOp st op h)
  exact hgen ops initState (by intro p hp _; simp [initState] at hp)

end Workflow

/-- Claim C7: in every state reachable from a fresh engine by any
sequence of `process_new_case`, `process_manufacturer_reply`,
`check_and_send_reminders` and `approve_case` invocations, a stored case
for which a reply has been received (`reply_received_at` stamped or a
reply text stored) never has status `awaiting_reply` — no operation
re-enters `AWAITING_REPLY` after a reply. -/
theorem c7_no_reenter_awaiting (ops : List Workflow.Op) :
    ∀ p ∈ (Workflow.run ops).cases,
      Workflow.reply_received p.2 → p.2.status ≠ "awaiting_reply" :=
  Workflow.noReopen_run ops

/-- The concrete operation sequence of the specification's walkthrough:
intake of the Danish case, then the manufacturer's reply. -/
def demoOps : List Workflow.Op :=
  [Workflow.Op.newCase "Hej, jeg har et problem" "da" 112,
   Workflow.Op.reply "TASK-1001" "We fixed it" 200]

/-- Claim C7, witness: after `demoOps` the stored case is exactly
`pendingCase`, it has received a reply, and the invariant instance
applies to it. -/
theorem c7_witness :
    (("CASE-1001", pendingCase) ∈ (Workflow.run demoOps).cases ∧
     Workflow.reply_received pendingCase) ∧
    pendingCase.status ≠ "awaiting_reply" :=
  ⟨⟨by decide, Or.inl rfl⟩,
   c7_no_reenter_awaiting demoOps ("CASE-1001", pendingCase) (by decide) (Or.inl rfl)⟩
